import Mathlib

/-!
Verification development for the `check-restart` assertion evaluation engine
(`internal/restart`, `internal/restart/registry`, `internal/restart/files`,
`internal/textutils`).

The Go code is shallowly embedded: each asserter's static configuration and
runtime state becomes a Lean structure, each method a Lean function on that
structure.  Go strings are Lean `String`s; Go byte slices are `List Nat`;
Go `error` values are `Option GoError`; a Go runtime panic is modelled as
`Option.none` in the result of the function that can panic.  The registry
`pathsMatched` map (`MatchedPathIndex`, keyed by the recorded path string,
holding a `MatchedPath` whose claim-relevant field is the `ignored` flag) is
modelled as an association list `List (String × Bool)` of (path key, ignored);
the `root`/`relative`/`base` display fields of `MatchedPath` and the registry
root-key enum enter no computation claimed about and are elided.  Character
case folding (`strings.ToLower`, `strings.EqualFold`) is modelled with ASCII
`Char.toLower`, which agrees with Go on the ASCII inputs the engine and the
claims use.
-/

/-- Go `strings.ToLower` on a single character (ASCII range, agreeing with
Go's Unicode lowering on ASCII input). -/
def goLowerChar (c : Char) : Char := c.toLower

/-- One character of `textutils.NormalizePath`: fold case, then
`filepath.ToSlash` converts the Windows separator to a forward slash. -/
def normalizeChar (c : Char) : Char :=
  let c := goLowerChar c
  if c = '\\' then '/' else c

/-- `textutils.NormalizePath`: `filepath.ToSlash(strings.ToLower(path))`.
Lowercasing never produces a backslash, so the composition is a single map. -/
def NormalizePath (path : String) : String := ⟨path.data.map normalizeChar⟩

/-- Whether `pat` is a leading segment of `s` (helper for `strings.Contains`). -/
def listStartsWith : List Char → List Char → Bool
  | [], _ => true
  | _ :: _, [] => false
  | a :: as, b :: bs => a == b && listStartsWith as bs

/-- Substring search over character lists (helper for `strings.Contains`). -/
def listContainsSub (sub : List Char) : List Char → Bool
  | [] => sub.isEmpty
  | c :: rest => listStartsWith sub (c :: rest) || listContainsSub sub rest

/-- Go `strings.Contains(s, sub)`. -/
def goContains (s sub : String) : Bool := listContainsSub sub.data s.data

/-- Go `strings.EqualFold` (ASCII-faithful model: equality after case folding). -/
def goEqualFold (a b : String) : Bool :=
  a.data.map goLowerChar == b.data.map goLowerChar

/-- `textutils.InList`: membership of `needle` in `haystack`, optionally
ignoring case.  Note this is whole-string comparison, not substring search. -/
def InList (needle : String) (haystack : List String) (ignoreCase : Bool) : Bool :=
  haystack.any (fun item => (ignoreCase && goEqualFold item needle) || item == needle)

/-- Go `strings.TrimSpace(s) == ""` (ASCII whitespace model). -/
def goIsBlank (s : String) : Bool := s.data.all Char.isWhitespace

/-- Go `strings.ReplaceAll` with empty replacement: delete every occurrence of
the (nonempty) pattern `pat` from the character list. -/
def listDeleteAll (pat : List Char) : List Char → List Char
  | [] => []
  | c :: rest =>
    if pat ≠ [] ∧ listStartsWith pat (c :: rest) then
      listDeleteAll pat (List.drop (pat.length - 1) rest)
    else c :: listDeleteAll pat rest
termination_by l => l.length
decreasing_by
  · simp only [List.length_drop, List.length_cons]
    omega
  · simp only [List.length_cons]
    omega

/-- Go `strings.ReplaceAll(s, pat, "")`. -/
def goDeleteAll (s pat : String) : String := ⟨listDeleteAll pat.data s.data⟩

/-- The Go error values recorded in asserter runtime state.  `wrapped` stands
for any unexpected OS-level error wrapped with `fmt.Errorf` context;
`errors.Is(err, restart.ErrMissingOptionalItem)` holds exactly for the
directly-assigned sentinel value. -/
inductive GoError where
  | missingOptionalItem
  | missingRequiredItem
  | missingValue
  | wrapped (msg : String)
deriving DecidableEq

/-- `errors.Is(err, restart.ErrMissingOptionalItem)` on an optional error. -/
def isMissingOptionalItem : Option GoError → Bool
  | some GoError.missingOptionalItem => true
  | _ => false

/-- `registry.KeyRebootEvidence`. -/
structure KeyRebootEvidence where
  dataOtherThanX : Bool := false
  subKeysExist : Bool := false
  valueExists : Bool := false
  keyExists : Bool := false
deriving DecidableEq

/-- `registry.KeyStringsRebootEvidence`. -/
structure KeyStringsRebootEvidence where
  valueFound : Bool := false
  allValuesFound : Bool := false
deriving DecidableEq

/-- `registry.KeyRuntime` (the open-handle field is a scoped OS resource and
is elided; `pathsMatched` is the map key plus the `ignored` flag of each
recorded `MatchedPath`). -/
structure KeyRuntime where
  err : Option GoError := none
  evidenceFound : KeyRebootEvidence := {}
  valueType : String := ""
  pathsMatched : List (String × Bool) := []
deriving DecidableEq

/-- `registry.Key`: static configuration plus runtime state.  The registry
root key enum only feeds display strings and `Validate`, which no claim
touches, and is elided; `keyRequired`/`valueRequired` are the two fields of
`KeyAssertions`. -/
structure Key where
  path : String := ""
  value : String := ""
  evidenceExpected : KeyRebootEvidence := {}
  keyRequired : Bool := false
  valueRequired : Bool := false
  runtime : KeyRuntime := {}
deriving DecidableEq

/-- `Key.HasEvidence`. -/
def Key.HasEvidence (k : Key) : Bool :=
  if k.runtime.evidenceFound.dataOtherThanX then true
  else if k.runtime.evidenceFound.keyExists then true
  else if k.runtime.evidenceFound.subKeysExist then true
  else if k.runtime.evidenceFound.valueExists then true
  else false

/-- `Key.Err`. -/
def Key.Err (k : Key) : Option GoError := k.runtime.err

/-- `Key.Ignored`: false when no matched paths are recorded, otherwise true
iff every recorded matched path is marked ignored. -/
def Key.Ignored (k : Key) : Bool :=
  if k.runtime.pathsMatched.length = 0 then false
  else k.runtime.pathsMatched.all (fun e => e.2)

/-- `Key.RebootRequired`. -/
def Key.RebootRequired (k : Key) : Bool :=
  if !k.Ignored && k.HasEvidence then true else false

/-- `Key.IsCriticalState`. -/
def Key.IsCriticalState (k : Key) : Bool :=
  if !k.Ignored && k.RebootRequired then false
  else if !k.Ignored && k.Err.isSome then !(isMissingOptionalItem k.Err)
  else false

/-- `Key.IsWarningState`. -/
def Key.IsWarningState (k : Key) : Bool :=
  !k.Ignored && k.RebootRequired

/-- `Key.IsOKState`. -/
def Key.IsOKState (k : Key) : Bool :=
  if k.Ignored then true
  else if !k.Ignored && k.RebootRequired then false
  else if !k.Ignored && k.Err.isSome then isMissingOptionalItem k.Err
  else true

/-- `Key.AddMatchedPath`: record paths, skipping keys already present in the
index (duplicate entries are ignored so existing metadata is preserved). -/
def Key.AddMatchedPath (k : Key) (paths : List String) : Key :=
  { k with runtime := { k.runtime with
      pathsMatched := paths.foldl
        (fun acc p => if acc.any (fun e => e.1 == p) then acc else acc ++ [(p, false)])
        k.runtime.pathsMatched } }

/-- One matched-path entry under `Key.Filter`: the entry's ignored flag is set
when any normalized ignore pattern occurs inside the normalized path string. -/
def filterEntry (ignorePatterns : List String) (e : String × Bool) : String × Bool :=
  (e.1, e.2 || ignorePatterns.any
    (fun pat => goContains (NormalizePath e.1) (NormalizePath pat)))

/-- `Key.Filter`: with zero patterns the method returns immediately;
otherwise every recorded matched path is checked against every pattern. -/
def Key.Filter (k : Key) (ignorePatterns : List String) : Key :=
  if ignorePatterns.length = 0 then k
  else { k with runtime := { k.runtime with
      pathsMatched := k.runtime.pathsMatched.map (filterEntry ignorePatterns) } }

/-- The reason sentences built with `fmt.Sprintf` by the `RebootReasons`
methods; each constructor stands for one format string with its arguments
(`keyDisplay` is the asserter's `String()` label). -/
inductive RebootReason where
  | dataOtherThanXFound (value keyDisplay : String)
  | keyFound (keyDisplay : String)
  | subKeysFound (keyDisplay : String)
  | valueOfTypeFound (value valueType keyDisplay : String)
  | valueFoundNoType (value keyDisplay : String)
  | matchFound (searchTerm value keyDisplay : String)
  | matchFoundNoTerm (value keyDisplay : String)
  | allValuesFoundReason (value keyDisplay : String)
  | pairDataMismatch (fqpath1 fqpath2 : String)
deriving DecidableEq

/-- `Key.String()` label (the registry root-name segment is display-only and
elided from the model, leaving the key path). -/
def Key.display (k : Key) : String := k.path

/-- `Key.RebootReasons`: one reason per discovered evidence flag, in source
order (DataOtherThanX, KeyExists, SubKeysExist, ValueExists). -/
def Key.RebootReasons (k : Key) : List RebootReason :=
  (if k.runtime.evidenceFound.dataOtherThanX then
    [RebootReason.dataOtherThanXFound k.value k.display] else []) ++
  (if k.runtime.evidenceFound.keyExists then
    [RebootReason.keyFound k.display] else []) ++
  (if k.runtime.evidenceFound.subKeysExist then
    [RebootReason.subKeysFound k.display] else []) ++
  (if k.runtime.evidenceFound.valueExists then
    (if k.runtime.valueType ≠ "" then
      [RebootReason.valueOfTypeFound k.value k.runtime.valueType k.display]
    else [RebootReason.valueFoundNoType k.value k.display]) else [])

/-- `registry.KeyStringsRuntime`. -/
structure KeyStringsRuntime where
  data : List String := []
  searchTermMatched : String := ""
  evidenceFound : KeyStringsRebootEvidence := {}
deriving DecidableEq

/-- `registry.KeyStrings`: the embedded base `Key`, its own runtime, the
configured candidate strings and the additional evidence markers. -/
structure KeyStrings where
  key : Key := {}
  runtime : KeyStringsRuntime := {}
  expectedData : List String := []
  additionalEvidence : KeyStringsRebootEvidence := {}
deriving DecidableEq

/-- `KeyStrings.HasEvidence` (this variant overrides the base method: the
enclosed `Key` is checked first, then the variant's own evidence flags). -/
def KeyStrings.HasEvidence (ks : KeyStrings) : Bool :=
  if ks.key.HasEvidence then true
  else if ks.runtime.evidenceFound.valueFound then true
  else if ks.runtime.evidenceFound.allValuesFound then true
  else false

/-- `KeyStrings.Ignored` is the promoted `Key.Ignored` (Go method promotion:
the method set of `*KeyStrings` takes `Ignored` from the embedded `*Key`). -/
def KeyStrings.Ignored (ks : KeyStrings) : Bool := ks.key.Ignored

/-- `KeyStrings.RebootRequired` is the promoted `Key.RebootRequired`; its
body statically calls `Key.HasEvidence` and `Key.Ignored` on the embedded
`Key`, so the variant's own `ValueFound`/`AllValuesFound` evidence flags are
not consulted (Go selects methods statically inside a promoted method). -/
def KeyStrings.RebootRequired (ks : KeyStrings) : Bool := ks.key.RebootRequired

/-- `KeyStrings.IsCriticalState`, promoted from the embedded `Key`. -/
def KeyStrings.IsCriticalState (ks : KeyStrings) : Bool := ks.key.IsCriticalState

/-- `KeyStrings.IsWarningState`, promoted from the embedded `Key`. -/
def KeyStrings.IsWarningState (ks : KeyStrings) : Bool := ks.key.IsWarningState

/-- `KeyStrings.IsOKState`, promoted from the embedded `Key`. -/
def KeyStrings.IsOKState (ks : KeyStrings) : Bool := ks.key.IsOKState

/-- `KeyStrings.RebootReasons`: the base `Key` reasons extended with the
`ValueFound` match (with the recorded search term when present) and the
`AllValuesFound` summary. -/
def KeyStrings.RebootReasons (ks : KeyStrings) : List RebootReason :=
  ks.key.RebootReasons ++
  (if ks.runtime.evidenceFound.valueFound then
    (if ks.runtime.searchTermMatched ≠ "" then
      [RebootReason.matchFound ks.runtime.searchTermMatched ks.key.value ks.key.display]
    else [RebootReason.matchFoundNoTerm ks.key.value ks.key.display]) else []) ++
  (if ks.runtime.evidenceFound.allValuesFound then
    [RebootReason.allValuesFoundReason ks.key.value ks.key.display] else [])

/-- Loop body of `KeyStrings.evalExpectedData`: walk the configured search
terms, counting matches (`valuesFound`), recording the matched term, and in
`ValueFound` mode recording evidence plus the matched path and returning
early on the first match; after the loop, `AllValuesFound` mode records
evidence when every term matched. -/
def KeyStrings.evalLoop (ks : KeyStrings) : List String → Nat → KeyStrings
  | [], valuesFound =>
    if ks.additionalEvidence.allValuesFound then
      if valuesFound = ks.expectedData.length then
        let ks := { ks with runtime := { ks.runtime with
          evidenceFound := { ks.runtime.evidenceFound with allValuesFound := true } } }
        { ks with key := ks.key.AddMatchedPath [ks.key.path] }
      else ks
    else ks
  | searchTerm :: rest, valuesFound =>
    if InList searchTerm ks.runtime.data true then
      let ks := { ks with runtime := { ks.runtime with searchTermMatched := searchTerm } }
      if ks.additionalEvidence.valueFound then
        let ks := { ks with runtime := { ks.runtime with
          evidenceFound := { ks.runtime.evidenceFound with valueFound := true } } }
        { ks with key := ks.key.AddMatchedPath [ks.key.path] }
      else KeyStrings.evalLoop ks rest (valuesFound + 1)
    else KeyStrings.evalLoop ks rest valuesFound

/-- `KeyStrings.evalExpectedData`: evaluate the configured candidate strings
against the retrieved multi-string data via `textutils.InList` (exact,
case-insensitive membership). -/
def KeyStrings.evalExpectedData (ks : KeyStrings) : KeyStrings :=
  KeyStrings.evalLoop ks ks.expectedData 0

/-- `registry.KeyPairRuntime`: the gathered value-data buffers (byte slices
as `List Nat`) and the discovered `PairedValuesDoNotMatch` evidence flag. -/
structure KeyPairRuntime where
  data : List (List Nat) := []
  pairedValuesDoNotMatch : Bool := false
deriving DecidableEq

/-- `registry.KeyPair`.  `Validate` enforces exactly two enclosed keys and
every method indexes `Keys[0]`/`Keys[1]`, so the pair is modelled as two
`Key` fields; `additionalEvidence` is `KeyPairRebootEvidence
.PairedValuesDoNotMatch`. -/
structure KeyPair where
  keys0 : Key := {}
  keys1 : Key := {}
  runtime : KeyPairRuntime := {}
  additionalEvidence : Bool := false
deriving DecidableEq

/-- `KeyPair.Err`: the first non-nil error of the enclosed keys. -/
def KeyPair.Err (kp : KeyPair) : Option GoError :=
  if kp.keys0.Err.isSome then kp.keys0.Err
  else if kp.keys1.Err.isSome then kp.keys1.Err
  else none

/-- `KeyPair.HasEvidence`: the enclosed keys are checked first, then the
pair-level `PairedValuesDoNotMatch` evidence flag. -/
def KeyPair.HasEvidence (kp : KeyPair) : Bool :=
  if kp.keys0.HasEvidence then true
  else if kp.keys1.HasEvidence then true
  else kp.runtime.pairedValuesDoNotMatch

/-- `KeyPair.Ignored`: both enclosed keys must be independently ignored. -/
def KeyPair.Ignored (kp : KeyPair) : Bool :=
  if kp.keys0.Ignored && kp.keys1.Ignored then true else false

/-- `KeyPair.RebootRequired`. -/
def KeyPair.RebootRequired (kp : KeyPair) : Bool :=
  if !kp.Ignored && kp.HasEvidence then true else false

/-- `KeyPair.IsCriticalState`: true when either enclosed key is critical. -/
def KeyPair.IsCriticalState (kp : KeyPair) : Bool :=
  if kp.keys0.IsCriticalState then true
  else if kp.keys1.IsCriticalState then true
  else false

/-- `KeyPair.IsWarningState`. -/
def KeyPair.IsWarningState (kp : KeyPair) : Bool :=
  !kp.Ignored && kp.RebootRequired

/-- `KeyPair.IsOKState`.  Unlike `Key.IsOKState` and `File.IsOKState`, the
error branch does not exempt the `ErrMissingOptionalItem` sentinel. -/
def KeyPair.IsOKState (kp : KeyPair) : Bool :=
  if kp.Ignored then true
  else if !kp.Ignored && kp.RebootRequired then false
  else if !kp.Ignored && kp.Err.isSome then false
  else true

/-- `KeyPair.AddMatchedPath`: records the given paths on both enclosed keys. -/
def KeyPair.AddMatchedPath (kp : KeyPair) (paths : List String) : KeyPair :=
  { kp with keys0 := kp.keys0.AddMatchedPath paths,
            keys1 := kp.keys1.AddMatchedPath paths }

/-- `KeyPair.Filter`: filter both enclosed keys. -/
def KeyPair.Filter (kp : KeyPair) (ignorePatterns : List String) : KeyPair :=
  { kp with keys0 := kp.keys0.Filter ignorePatterns,
            keys1 := kp.keys1.Filter ignorePatterns }

/-- `KeyPair.RebootReasons`: the enclosed keys' reasons followed by the pair
mismatch reason when `PairedValuesDoNotMatch` evidence was found. -/
def KeyPair.RebootReasons (kp : KeyPair) : List RebootReason :=
  kp.keys0.RebootReasons ++ kp.keys1.RebootReasons ++
  (if kp.runtime.pairedValuesDoNotMatch then
    [RebootReason.pairDataMismatch
      (kp.keys0.path ++ "\\" ++ kp.keys0.value)
      (kp.keys1.path ++ "\\" ++ kp.keys1.value)] else [])

/-- `files.FileRebootEvidence`. -/
structure FileRebootEvidence where
  fileExists : Bool := false
  fileEmpty : Bool := false
  fileNotEmpty : Bool := false
  fileExecutable : Bool := false
  fileIsSymlink : Bool := false
deriving DecidableEq

/-- `files.FileRuntime` (matched paths modelled as for `KeyRuntime`). -/
structure FileRuntime where
  err : Option GoError := none
  evidenceFound : FileRebootEvidence := {}
  pathsMatched : List (String × Bool) := []
deriving DecidableEq

/-- `files.File`: static path configuration plus runtime state (the
environment-variable prefix only affects path resolution inside `String()`
and `Evaluate`, which no claim computes through, and is kept as plain data). -/
structure File where
  path : String := ""
  envVarPathPrefixName : String := ""
  runtime : FileRuntime := {}
  evidenceExpected : FileRebootEvidence := {}
  fileRequired : Bool := false
deriving DecidableEq

/-- `File.Err`. -/
def File.Err (f : File) : Option GoError := f.runtime.err

/-- `File.HasEvidence`. -/
def File.HasEvidence (f : File) : Bool :=
  if f.runtime.evidenceFound.fileExists then true
  else if f.runtime.evidenceFound.fileEmpty then true
  else if f.runtime.evidenceFound.fileNotEmpty then true
  else if f.runtime.evidenceFound.fileExecutable then true
  else if f.runtime.evidenceFound.fileIsSymlink then true
  else false

/-- `File.Ignored`: same rule as `Key.Ignored`. -/
def File.Ignored (f : File) : Bool :=
  if f.runtime.pathsMatched.length = 0 then false
  else f.runtime.pathsMatched.all (fun e => e.2)

/-- `File.RebootRequired`. -/
def File.RebootRequired (f : File) : Bool :=
  if !f.Ignored && f.HasEvidence then true else false

/-- `File.IsCriticalState`. -/
def File.IsCriticalState (f : File) : Bool :=
  if !f.Ignored && f.RebootRequired then false
  else if !f.Ignored && f.Err.isSome then !(isMissingOptionalItem f.Err)
  else false

/-- `File.IsWarningState`. -/
def File.IsWarningState (f : File) : Bool :=
  !f.Ignored && f.RebootRequired

/-- `File.IsOKState`. -/
def File.IsOKState (f : File) : Bool :=
  if f.Ignored then true
  else if !f.Ignored && f.RebootRequired then false
  else if !f.Ignored && f.Err.isSome then isMissingOptionalItem f.Err
  else true

/-- `File.Filter`: same pattern/containment logic as `Key.Filter`. -/
def File.Filter (f : File) (ignorePatterns : List String) : File :=
  if ignorePatterns.length = 0 then f
  else { f with runtime := { f.runtime with
      pathsMatched := f.runtime.pathsMatched.map (filterEntry ignorePatterns) } }

/-- A member of a `restart.RebootRequiredAsserters` collection.  `KeyInt`,
`KeyBinary` and `KeyString` add only retrieved-data fields and inherit every
state-classification method from the embedded `Key`, so the `key` constructor
covers them; `KeyStrings` is separate because it overrides `HasEvidence` and
`RebootReasons`. -/
inductive Asserter where
  | key : Key → Asserter
  | keyStrings : KeyStrings → Asserter
  | keyPair : KeyPair → Asserter
  | file : File → Asserter
deriving DecidableEq

/-- Dynamic dispatch of `Err()` through the collection interface. -/
def Asserter.Err : Asserter → Option GoError
  | .key k => k.Err
  | .keyStrings ks => ks.key.Err
  | .keyPair kp => kp.Err
  | .file f => f.Err

/-- Dynamic dispatch of `HasEvidence()` through the collection interface. -/
def Asserter.HasEvidence : Asserter → Bool
  | .key k => k.HasEvidence
  | .keyStrings ks => ks.HasEvidence
  | .keyPair kp => kp.HasEvidence
  | .file f => f.HasEvidence

/-- Dynamic dispatch of `Ignored()`. -/
def Asserter.Ignored : Asserter → Bool
  | .key k => k.Ignored
  | .keyStrings ks => ks.Ignored
  | .keyPair kp => kp.Ignored
  | .file f => f.Ignored

/-- Dynamic dispatch of `RebootRequired()`. -/
def Asserter.RebootRequired : Asserter → Bool
  | .key k => k.RebootRequired
  | .keyStrings ks => ks.RebootRequired
  | .keyPair kp => kp.RebootRequired
  | .file f => f.RebootRequired

/-- Dynamic dispatch of `IsCriticalState()`. -/
def Asserter.IsCriticalState : Asserter → Bool
  | .key k => k.IsCriticalState
  | .keyStrings ks => ks.IsCriticalState
  | .keyPair kp => kp.IsCriticalState
  | .file f => f.IsCriticalState

/-- Dynamic dispatch of `IsWarningState()`. -/
def Asserter.IsWarningState : Asserter → Bool
  | .key k => k.IsWarningState
  | .keyStrings ks => ks.IsWarningState
  | .keyPair kp => kp.IsWarningState
  | .file f => f.IsWarningState

/-- Dynamic dispatch of `IsOKState()`. -/
def Asserter.IsOKState : Asserter → Bool
  | .key k => k.IsOKState
  | .keyStrings ks => ks.IsOKState
  | .keyPair kp => kp.IsOKState
  | .file f => f.IsOKState

/-- Dynamic dispatch of `Filter(ignorePatterns)`. -/
def Asserter.Filter (ignorePatterns : List String) : Asserter → Asserter
  | .key k => .key (k.Filter ignorePatterns)
  | .keyStrings ks => .keyStrings { ks with key := ks.key.Filter ignorePatterns }
  | .keyPair kp => .keyPair (kp.Filter ignorePatterns)
  | .file f => .file (f.Filter ignorePatterns)

/-- Number of recorded matched paths (`len` of `MatchedPaths()`, which for a
pair concatenates both members' sorted entries). -/
def Asserter.numMatchedPaths : Asserter → Nat
  | .key k => k.runtime.pathsMatched.length
  | .keyStrings ks => ks.key.runtime.pathsMatched.length
  | .keyPair kp => kp.keys0.runtime.pathsMatched.length + kp.keys1.runtime.pathsMatched.length
  | .file f => f.runtime.pathsMatched.length

/-- `nagios.ServiceState`: a state label with its exit code. -/
structure ServiceState where
  label : String
  exitCode : Nat
deriving DecidableEq

/-- `nagios.State*Label` / `nagios.State*ExitCode` for OK. -/
def stateOK : ServiceState := { label := "OK", exitCode := 0 }

/-- Nagios WARNING state constant. -/
def stateWARNING : ServiceState := { label := "WARNING", exitCode := 1 }

/-- Nagios CRITICAL state constant. -/
def stateCRITICAL : ServiceState := { label := "CRITICAL", exitCode := 2 }

/-- Nagios UNKNOWN state constant. -/
def stateUNKNOWN : ServiceState := { label := "UNKNOWN", exitCode := 3 }

/-- `RebootRequiredAsserters.HasCriticalState`. -/
def RebootRequiredAsserters.HasCriticalState (rras : List Asserter) : Bool :=
  rras.any Asserter.IsCriticalState

/-- `RebootRequiredAsserters.HasWarningState`. -/
def RebootRequiredAsserters.HasWarningState (rras : List Asserter) : Bool :=
  rras.any Asserter.IsWarningState

/-- `RebootRequiredAsserters.IsOKState`. -/
def RebootRequiredAsserters.IsOKState (rras : List Asserter) : Bool :=
  rras.all Asserter.IsOKState

/-- `RebootRequiredAsserters.ServiceState`: CRITICAL, then WARNING, then OK,
with an UNKNOWN fallback. -/
def RebootRequiredAsserters.ServiceState (rras : List Asserter) : ServiceState :=
  if RebootRequiredAsserters.HasCriticalState rras then stateCRITICAL
  else if RebootRequiredAsserters.HasWarningState rras then stateWARNING
  else if RebootRequiredAsserters.IsOKState rras then stateOK
  else stateUNKNOWN

/-- `RebootRequiredAsserters.RebootRequired`: any member indicates a reboot. -/
def RebootRequiredAsserters.RebootRequired (rras : List Asserter) : Bool :=
  rras.any Asserter.RebootRequired

/-- `RebootRequiredAsserters.Filter`: filter every member. -/
def RebootRequiredAsserters.Filter (rras : List Asserter) (ignorePatterns : List String) : List Asserter :=
  rras.map (Asserter.Filter ignorePatterns)

/-- `RebootRequiredAsserters.NumMatched`. -/
def RebootRequiredAsserters.NumMatched (rras : List Asserter) : Nat :=
  rras.countP (fun a => a.RebootRequired)

/-- `RebootRequiredAsserters.NumIgnored`. -/
def RebootRequiredAsserters.NumIgnored (rras : List Asserter) : Nat :=
  rras.countP (fun a => a.Ignored)

/-- `RebootRequiredAsserters.NotIgnoredItems`: order-preserving partition. -/
def RebootRequiredAsserters.NotIgnoredItems (rras : List Asserter) : List Asserter :=
  rras.filter (fun a => !a.Ignored)

/-- `RebootRequiredAsserters.IgnoredItems`: order-preserving partition. -/
def RebootRequiredAsserters.IgnoredItems (rras : List Asserter) : List Asserter :=
  rras.filter (fun a => a.Ignored)

/-- Outcome of the registry value lookups performed by
`KeyPair.gatherKeyPairData` for one key: the value may be absent
(`registry.ErrNotExist`), the size-probing `GetValue` call may fail, the
buffer-filling `GetValue` call may fail, or the value's data is returned. -/
inductive RegValueLookup where
  | notExist
  | sizeErr (msg : String)
  | dataErr (msg : String)
  | ok (buffer : List Nat)
deriving DecidableEq

/-- `KeyPair.gatherKeyPairData` acting on one enclosed key: returns the key
with any recorded error, together with the retrieved buffer when the lookup
succeeded (the buffer is appended to `runtime.data` only in that case). -/
def gatherOne (key : Key) (lookup : RegValueLookup) : Key × Option (List Nat) :=
  match lookup with
  | .notExist =>
    if key.valueRequired then
      ({ key with runtime := { key.runtime with err := some GoError.missingValue } }, none)
    else (key, none)
  | .sizeErr msg =>
    ({ key with runtime := { key.runtime with err := some (GoError.wrapped msg) } }, none)
  | .dataErr msg =>
    ({ key with runtime := { key.runtime with err := some (GoError.wrapped msg) } }, none)
  | .ok buffer => (key, some buffer)

/-- Summary of one member's base evaluation (`Key.evaluate(false)`) and value
lookup: the registry interaction is abstracted to its observable outcome on
the key's runtime state. -/
structure MemberEnv where
  baseErr : Option GoError := none
  baseEvidence : Bool := false
  lookup : RegValueLookup := RegValueLookup.notExist
deriving DecidableEq

/-- Apply the summarized outcome of `Key.evaluate(false)` to a key: record
the error, and on discovered evidence set a `KeyExists`-style evidence flag
with its matched path. -/
def applyBaseEval (k : Key) (env : MemberEnv) : Key :=
  let k := { k with runtime := { k.runtime with err := env.baseErr } }
  if env.baseEvidence then
    let k := { k with runtime := { k.runtime with
      evidenceFound := { k.runtime.evidenceFound with keyExists := true } } }
    k.AddMatchedPath [k.path]
  else k

/-- `KeyPair.evalKeyPairData`: compares `runtime.data[0]` with
`runtime.data[1]` without a length guard; `none` models the Go index
out-of-range panic raised when a buffer is missing. -/
def KeyPair.evalKeyPairData (kp : KeyPair) : Option KeyPair :=
  match kp.runtime.data[0]? with
  | none => none
  | some d0 =>
    match kp.runtime.data[1]? with
    | none => none
    | some d1 =>
      if d0 ≠ d1 then
        let kp := { kp with runtime := { kp.runtime with pairedValuesDoNotMatch := true } }
        some (kp.AddMatchedPath [kp.keys0.path, kp.keys1.path])
      else some kp

/-- `KeyPair.Evaluate`: for each enclosed key in order, run the base
evaluation, then apply the early-exit switch (member error; member evidence;
`PairedValuesDoNotMatch` not configured; empty value name) and otherwise
gather that member's value data; after the loop the gathered buffers are
compared by `evalKeyPairData`.  A `some` result is a completed evaluation
(the final `KeyPair` state); `none` is the Go panic inside
`evalKeyPairData`.  Note a gathering error for the first key does not stop
the loop: the switch at the top of the second iteration only inspects the
second key. -/
def KeyPair.EvaluateModel (kp : KeyPair) (env0 env1 : MemberEnv) : Option KeyPair :=
  let k0 := applyBaseEval kp.keys0 env0
  let kp := { kp with keys0 := k0 }
  if k0.Err.isSome then some kp
  else if k0.HasEvidence then some kp
  else if !kp.additionalEvidence then some kp
  else if k0.value == "" then some kp
  else
    let g0 := gatherOne k0 env0.lookup
    let kp := { kp with keys0 := g0.1 }
    let kp := { kp with runtime := { kp.runtime with data := kp.runtime.data ++ g0.2.toList } }
    let k1 := applyBaseEval kp.keys1 env1
    let kp := { kp with keys1 := k1 }
    if k1.Err.isSome then some kp
    else if k1.HasEvidence then some kp
    else if !kp.additionalEvidence then some kp
    else if k1.value == "" then some kp
    else
      let g1 := gatherOne k1 env1.lookup
      let kp := { kp with keys1 := g1.1 }
      let kp := { kp with runtime := { kp.runtime with data := kp.runtime.data ++ g1.2.toList } }
      KeyPair.evalKeyPairData kp

/-- `registry.pendingFileRenameOperationsPrefix`, the noisy entry pattern
stripped by `KeyStrings.CleanedData`. -/
def pfroPattern : String := "\\??\\"

/-- `registry.RegKeyTypeMultiSZDataDisplayLimit`. -/
def RegKeyTypeMultiSZDataDisplayLimit : Nat := 2

/-- `KeyStrings.CleanedData`: drop blank entries and strip the noisy prefix
pattern; the result is built with `make([]string, 0, len(data))`, so the Go
slice's capacity is the raw entry count. -/
def CleanedData : List String → List String
  | [] => []
  | entry :: rest =>
    if goIsBlank entry then CleanedData rest
    else goDeleteAll entry pfroPattern :: CleanedData rest

/-- The Go full slice expression `s[:high]` on a slice with value list `xs`
backed by an array of capacity `capacity` freshly allocated with
`make(len 0, capacity)` (unused backing entries are zero-valued strings):
legal, and re-extending into the backing array, whenever `high ≤ capacity`;
`none` models the slice-bounds-out-of-range panic otherwise. -/
def goSliceTake (xs : List String) (capacity high : Nat) : Option (List String) :=
  if high ≤ capacity then
    some ((xs ++ List.replicate (capacity - xs.length) "").take high)
  else none

/-- `KeyStrings.DataDisplay`: cap the displayed entries at the sampling
limit, prefixed with a total/skipped banner; `none` models a panic (the
claim under test asserts one occurs). -/
def KeyStrings.DataDisplay (ks : KeyStrings) : Option String :=
  let entriesFound := ks.runtime.data.length
  if entriesFound > RegKeyTypeMultiSZDataDisplayLimit then
    let entriesSkipped := entriesFound - RegKeyTypeMultiSZDataDisplayLimit
    let listPrefix := "Entries [" ++ toString entriesFound ++ " total, " ++
      toString entriesSkipped ++ " skipped]"
    match goSliceTake (CleanedData ks.runtime.data) entriesFound
        RegKeyTypeMultiSZDataDisplayLimit with
    | none => none
    | some samples => some (listPrefix ++ ": " ++ String.intercalate ", " samples)
  else
    let listPrefix := "Entries [" ++ toString entriesFound ++ " total, " ++
      toString 0 ++ " skipped]"
    some (listPrefix ++ ": " ++ String.intercalate ", " (CleanedData ks.runtime.data))

/-- Evaluated key with `KeyExists` evidence, one non-ignored matched path and
no error (a WARNING-state member). -/
def kEvC1 : Key :=
  { path := "SOFTWARE\\Microsoft\\Updates",
    runtime := { evidenceFound := { keyExists := true },
                 pathsMatched := [("SOFTWARE\\Microsoft\\Updates", false)] } }

/-- Evaluated key whose evaluation recorded an unexpected (non-sentinel)
error: no evidence, no matched paths (a CRITICAL-state member). -/
def kErrC1 : Key :=
  { path := "SYSTEM\\Other",
    runtime := { err := some (GoError.wrapped "access denied") } }

/-- `KeyStrings` in `ValueFound` mode, candidates `["a", "b"]`, retrieved
multi-string data `["xb y"]` (the claim C2 scenario). -/
def ksC2xb : KeyStrings :=
  { key := { path := "k", value := "v" },
    expectedData := ["a", "b"],
    additionalEvidence := { valueFound := true },
    runtime := { data := ["xb y"] } }

/-- `KeyStrings` in `ValueFound` mode, candidates `["a", "b"]`, retrieved
multi-string data `["b"]` (an entry equal to candidate "b"). -/
def ksC2b : KeyStrings :=
  { key := { path := "k", value := "v" },
    expectedData := ["a", "b"],
    additionalEvidence := { valueFound := true },
    runtime := { data := ["b"] } }

/-- Evaluated `KeyPair` whose first member's optional key was absent: the
base evaluation recorded the `ErrMissingOptionalItem` sentinel and the loop
returned before touching the second member (no evidence, no matched paths
anywhere). -/
def kpSentinelC3 : KeyPair :=
  { keys0 := { path := "p0", value := "v0",
               runtime := { err := some GoError.missingOptionalItem } },
    keys1 := { path := "p1", value := "v1" },
    additionalEvidence := true }

/-- Evaluated `KeyPair` where gathering the first member's value data failed
(wrapped error) and the second member's base evaluation then discovered
evidence with a non-ignored matched path. -/
def kpORC4 : KeyPair :=
  { keys0 := { path := "p0", value := "v0",
               runtime := { err := some (GoError.wrapped "read failed") } },
    keys1 := { path := "p1", value := "v1",
               runtime := { evidenceFound := { keyExists := true },
                            pathsMatched := [("p1", false)] } },
    additionalEvidence := true }

/-- `KeyPair` whose first member carries one matched path marked ignored and
whose second member recorded no matched paths (e.g. the first member's base
evaluation found evidence and returned early, then `Filter` matched). -/
def kpC6 : KeyPair :=
  { keys0 := { path := "p0",
               runtime := { evidenceFound := { keyExists := true },
                            pathsMatched := [("p0", true)] } },
    keys1 := { path := "p1" } }

/-- Ignore pattern written lower-case with forward slashes (claim C7). -/
def patC7 : String := "software/foo/pending/abc"

/-- Key with one recorded matched path written with upper-case segments and
backslash separators, extending the C7 pattern by a subitem. -/
def kC7 : Key :=
  { path := "SOFTWARE\\Foo\\Pending",
    runtime := { evidenceFound := { subKeysExist := true },
                 pathsMatched := [("SOFTWARE\\Foo\\Pending\\abc\\subitem", false)] } }

/-- `KeyPair` configured for `PairedValuesDoNotMatch` with both value names
set (the claim C9 scenario), prior to evaluation. -/
def kpC9 : KeyPair :=
  { keys0 := { path := "p0", value := "v0", keyRequired := true, valueRequired := true },
    keys1 := { path := "p1", value := "v1", keyRequired := true, valueRequired := true },
    additionalEvidence := true }

/-- Member environment for C9's first key: clean base evaluation, but the
value is absent at gathering time. -/
def envC9abs : MemberEnv := { lookup := RegValueLookup.notExist }

/-- Member environment for C9's second key: clean base evaluation and a
successful one-byte data retrieval. -/
def envC9ok : MemberEnv := { lookup := RegValueLookup.ok [1] }

/-- `KeyStrings` whose retrieved multi-string data is three blank entries
(raw count above the display limit, cleaned count below it). -/
def ksC10 : KeyStrings :=
  { key := { path := "k", value := "v" },
    runtime := { data := ["", "", ""] } }

/-- The buffer component of `gatherKeyPairData`'s outcome: a buffer is
appended to `runtime.data` exactly when the lookup succeeded. -/
def gatherBuffer : RegValueLookup → Option (List Nat)
  | RegValueLookup.ok buffer => some buffer
  | _ => none

/-- `KeyStrings` in `ValueFound` mode whose retrieved data `["b"]` contains
candidate "b" exactly (the C5 failing input, evaluated below). -/
def ksC5 : KeyStrings :=
  { key := { path := "k", value := "v" },
    expectedData := ["a", "b"],
    additionalEvidence := { valueFound := true },
    runtime := { data := ["b"] } }

/-- A key whose matched-path entry flags are all false is not ignored. -/
theorem key_ignored_false_of_no_ignored_path (k : Key)
    (h : ∀ e ∈ k.runtime.pathsMatched, e.2 = false) : k.Ignored = false := by
  rcases hp : k.runtime.pathsMatched with _ | ⟨a, l⟩
  · simp [Key.Ignored, hp]
  · have ha : a.2 = false := h a (by rw [hp]; exact List.mem_cons_self a l)
    simp [Key.Ignored, hp, List.all_cons, ha]

/-- C1 counterexample: a collection holding a member with recorded evidence
and no ignored matched paths, next to a member with a non-nil, non-sentinel
error, yields CRITICAL — not WARNING as the claim states — because the
collection-level `ServiceState` tests `HasCriticalState` first. -/
theorem serviceState_critical_masks_warning :
    kEvC1.HasEvidence = true ∧
    (∀ e ∈ kEvC1.runtime.pathsMatched, e.2 = false) ∧
    kErrC1.Err.isSome = true ∧
    isMissingOptionalItem kErrC1.Err = false ∧
    RebootRequiredAsserters.ServiceState [Asserter.key kEvC1, Asserter.key kErrC1] ≠ stateWARNING ∧
    RebootRequiredAsserters.ServiceState [Asserter.key kEvC1, Asserter.key kErrC1] = stateCRITICAL := by
  decide

/-- A file whose matched-path entry flags are all false is not ignored. -/
theorem file_ignored_false_of_no_ignored_path (f : File)
    (h : ∀ e ∈ f.runtime.pathsMatched, e.2 = false) : f.Ignored = false := by
  rcases hp : f.runtime.pathsMatched with _ | ⟨a, l⟩
  · simp [File.Ignored, hp]
  · have ha : a.2 = false := h a (by rw [hp]; exact List.mem_cons_self a l)
    simp [File.Ignored, hp, List.all_cons, ha]

/-- A collection holding a warning-state member and no critical member
reports WARNING. -/
theorem serviceState_warning_of_member_warning (rras : List Asserter) (a : Asserter)
    (hmem : a ∈ rras) (hwarn : a.IsWarningState = true)
    (hnocrit : RebootRequiredAsserters.HasCriticalState rras = false) :
    RebootRequiredAsserters.ServiceState rras = stateWARNING := by
  have hw : RebootRequiredAsserters.HasWarningState rras = true := by
    simp only [RebootRequiredAsserters.HasWarningState, List.any_eq_true]
    exact ⟨a, hmem, hwarn⟩
  simp [RebootRequiredAsserters.ServiceState, hnocrit, hw]

/-- C1 (amended): if some member has recorded evidence — as seen by that
member's own state classification — with none of its matched paths ignored,
and no member of the collection is in CRITICAL state, then `ServiceState()`
is WARNING.  For a `Key` (equally the typed variants), a `KeyPair` (either
member's evidence or the pair-level mismatch flag) and a `File` this covers
all recorded evidence.  For a `KeyStrings` member the classification only
sees the embedded `Key`'s evidence: variant-level `ValueFound` evidence
alone does not produce WARNING (the promoted-method defect evaluated for
C5), as the final conjunct shows — there the collection reports OK. -/
theorem serviceState_warning_of_evidence_member :
    (∀ (rras : List Asserter) (k : Key),
      Asserter.key k ∈ rras →
      k.HasEvidence = true →
      (∀ e ∈ k.runtime.pathsMatched, e.2 = false) →
      RebootRequiredAsserters.HasCriticalState rras = false →
      RebootRequiredAsserters.ServiceState rras = stateWARNING) ∧
    (∀ (rras : List Asserter) (ks : KeyStrings),
      Asserter.keyStrings ks ∈ rras →
      ks.key.HasEvidence = true →
      (∀ e ∈ ks.key.runtime.pathsMatched, e.2 = false) →
      RebootRequiredAsserters.HasCriticalState rras = false →
      RebootRequiredAsserters.ServiceState rras = stateWARNING) ∧
    (∀ (rras : List Asserter) (kp : KeyPair),
      Asserter.keyPair kp ∈ rras →
      kp.HasEvidence = true →
      (∀ e ∈ kp.keys0.runtime.pathsMatched, e.2 = false) →
      (∀ e ∈ kp.keys1.runtime.pathsMatched, e.2 = false) →
      RebootRequiredAsserters.HasCriticalState rras = false →
      RebootRequiredAsserters.ServiceState rras = stateWARNING) ∧
    (∀ (rras : List Asserter) (f : File),
      Asserter.file f ∈ rras →
      f.HasEvidence = true →
      (∀ e ∈ f.runtime.pathsMatched, e.2 = false) →
      RebootRequiredAsserters.HasCriticalState rras = false →
      RebootRequiredAsserters.ServiceState rras = stateWARNING) ∧
    RebootRequiredAsserters.ServiceState
        [Asserter.keyStrings (KeyStrings.evalExpectedData ksC5)] = stateOK := by
  refine ⟨?_, ?_, ?_, ?_, by decide⟩
  · intro rras k hmem hev hpaths hnocrit
    have hig : k.Ignored = false := key_ignored_false_of_no_ignored_path k hpaths
    refine serviceState_warning_of_member_warning rras _ hmem ?_ hnocrit
    simp [Asserter.IsWarningState, Key.IsWarningState, Key.RebootRequired, hig, hev]
  · intro rras ks hmem hev hpaths hnocrit
    have hig : ks.key.Ignored = false :=
      key_ignored_false_of_no_ignored_path ks.key hpaths
    refine serviceState_warning_of_member_warning rras _ hmem ?_ hnocrit
    simp [Asserter.IsWarningState, KeyStrings.IsWarningState, Key.IsWarningState,
      Key.RebootRequired, hig, hev]
  · intro rras kp hmem hev hpaths0 hpaths1 hnocrit
    have hig0 : kp.keys0.Ignored = false :=
      key_ignored_false_of_no_ignored_path kp.keys0 hpaths0
    have hig1 : kp.keys1.Ignored = false :=
      key_ignored_false_of_no_ignored_path kp.keys1 hpaths1
    refine serviceState_warning_of_member_warning rras _ hmem ?_ hnocrit
    simp [Asserter.IsWarningState, KeyPair.IsWarningState, KeyPair.RebootRequired,
      KeyPair.Ignored, hig0, hig1, hev]
  · intro rras f hmem hev hpaths hnocrit
    have hig : f.Ignored = false := file_ignored_false_of_no_ignored_path f hpaths
    refine serviceState_warning_of_member_warning rras _ hmem ?_ hnocrit
    simp [Asserter.IsWarningState, File.IsWarningState, File.RebootRequired, hig, hev]

/-- C1 witness: the amended theorem's base-key conjunct applied to a
singleton collection. -/
theorem serviceState_warning_of_evidence_member_witness :
    RebootRequiredAsserters.ServiceState [Asserter.key kEvC1] = stateWARNING :=
  serviceState_warning_of_evidence_member.1 [Asserter.key kEvC1] kEvC1
    (by decide) (by decide) (by decide) (by decide)

/-- C2 counterexample: in `ValueFound` mode with candidates `["a","b"]` and
retrieved data `["xb y"]`, no evidence is recorded and no reboot reason is
produced — `textutils.InList` compares whole entries (case-insensitively),
it does not search substrings, so "b" does not match "xb y". -/
theorem keyStrings_no_substring_match :
    ksC2xb.additionalEvidence.valueFound = true ∧
    ksC2xb.expectedData = ["a", "b"] ∧
    ksC2xb.runtime.data = ["xb y"] ∧
    (KeyStrings.evalExpectedData ksC2xb).runtime.evidenceFound.valueFound = false ∧
    (KeyStrings.evalExpectedData ksC2xb).HasEvidence = false ∧
    (KeyStrings.evalExpectedData ksC2xb).RebootReasons = [] := by
  decide

/-- C2 (amended): `ValueFound` matching is exact case-insensitive membership,
not substring search: with candidates `["a","b"]`, the retrieved list
`["xb y"]` matches nothing, while a retrieved list containing an entry equal
to "b" records `ValueFound` evidence with matched term "b" and produces
exactly one reason referencing "b". -/
theorem keyStrings_exact_match_single_reason :
    InList "b" ["xb y"] true = false ∧
    InList "b" ["b"] true = true ∧
    (KeyStrings.evalExpectedData ksC2b).runtime.evidenceFound.valueFound = true ∧
    (KeyStrings.evalExpectedData ksC2b).runtime.searchTermMatched = "b" ∧
    (KeyStrings.evalExpectedData ksC2b).RebootReasons =
      [RebootReason.matchFound "b" "v" "k"] := by
  decide

/-- C3 (code bug): a `KeyPair` whose first member recorded the
`ErrMissingOptionalItem` sentinel (optional key absent) is neither critical
(the member rule exempts the sentinel) nor warning (no evidence) nor OK
(`KeyPair.IsOKState` fails to exempt the sentinel, unlike `Key.IsOKState`
and `File.IsOKState`), so the collection's UNKNOWN fallback is reached. -/
theorem keyPair_optional_sentinel_reaches_unknown :
    kpSentinelC3.Err = some GoError.missingOptionalItem ∧
    RebootRequiredAsserters.HasCriticalState [Asserter.keyPair kpSentinelC3] = false ∧
    RebootRequiredAsserters.HasWarningState [Asserter.keyPair kpSentinelC3] = false ∧
    RebootRequiredAsserters.IsOKState [Asserter.keyPair kpSentinelC3] = false ∧
    RebootRequiredAsserters.ServiceState [Asserter.keyPair kpSentinelC3] = stateUNKNOWN := by
  decide

/-- C4 counterexample: a `KeyPair` can be simultaneously reboot-required
(second member's evidence, not ignored) and critical (first member's
non-sentinel error), contradicting the claim that `IsCriticalState()` holds
only without reboot-required. -/
theorem keyPair_critical_despite_reboot_required :
    KeyPair.Ignored kpORC4 = false ∧
    KeyPair.RebootRequired kpORC4 = true ∧
    KeyPair.IsCriticalState kpORC4 = true := by
  decide

/-- Branch form of the member-level critical rule. -/
theorem critChar (ig rr som sen : Bool) :
    (if !ig && rr then false else if !ig && som then !sen else false) =
      (!ig && !rr && som && !sen) := by
  cases ig <;> cases rr <;> cases som <;> cases sen <;> rfl

/-- Branch form of the member-level OK rule against the other two states. -/
theorem okChar (ig rr som sen : Bool) :
    (if ig then true else if !ig && rr then false else if !ig && som then sen else true) =
      (!(!ig && rr) &&
        !(if !ig && rr then false else if !ig && som then !sen else false)) := by
  cases ig <;> cases rr <;> cases som <;> cases sen <;> rfl

/-- Two-branch disjunction form of the pair-level critical rule. -/
theorem orChar (a b : Bool) :
    (if a then true else if b then true else false) = (a || b) := by
  cases a <;> cases b <;> rfl

/-- Branch form of the pair-level OK rule. -/
theorem pairOkChar (ig rr som : Bool) :
    (if ig then true else if !ig && rr then false else if !ig && som then false else true) =
      (ig || (!rr && !som)) := by
  cases ig <;> cases rr <;> cases som <;> rfl

/-- C4 (amended): for `Key` (equally the typed variants, which inherit these
methods) and `File`: WARNING iff not-ignored and reboot-required; CRITICAL
iff not-ignored, not reboot-required, with a non-nil non-sentinel error; OK
in exactly the remaining cases.  `KeyStrings` classifies via its embedded
`Key` (Go method promotion).  A `KeyPair` deviates from the claim:
`IsCriticalState` is the disjunction of the members' classifications (so it
can coexist with reboot-required), and `IsOKState` rejects any non-nil pair
error, the missing-optional sentinel included. -/
theorem asserter_state_classification :
    (∀ k : Key,
      k.IsWarningState = (!k.Ignored && k.RebootRequired) ∧
      k.IsCriticalState =
        (!k.Ignored && !k.RebootRequired && k.Err.isSome && !(isMissingOptionalItem k.Err)) ∧
      k.IsOKState = (!k.IsWarningState && !k.IsCriticalState)) ∧
    (∀ f : File,
      f.IsWarningState = (!f.Ignored && f.RebootRequired) ∧
      f.IsCriticalState =
        (!f.Ignored && !f.RebootRequired && f.Err.isSome && !(isMissingOptionalItem f.Err)) ∧
      f.IsOKState = (!f.IsWarningState && !f.IsCriticalState)) ∧
    (∀ ks : KeyStrings,
      ks.IsWarningState = ks.key.IsWarningState ∧
      ks.IsCriticalState = ks.key.IsCriticalState ∧
      ks.IsOKState = ks.key.IsOKState) ∧
    (∀ kp : KeyPair,
      kp.IsWarningState = (!kp.Ignored && kp.RebootRequired) ∧
      kp.IsCriticalState = (kp.keys0.IsCriticalState || kp.keys1.IsCriticalState) ∧
      kp.IsOKState = (kp.Ignored || (!kp.RebootRequired && !kp.Err.isSome))) := by
  refine ⟨fun k => ⟨rfl, ?_, ?_⟩, fun f => ⟨rfl, ?_, ?_⟩,
    fun ks => ⟨rfl, rfl, rfl⟩, fun kp => ⟨rfl, ?_, ?_⟩⟩
  · simp only [Key.IsCriticalState]
    exact critChar _ _ _ _
  · simp only [Key.IsOKState, Key.IsWarningState, Key.IsCriticalState]
    exact okChar _ _ _ _
  · simp only [File.IsCriticalState]
    exact critChar _ _ _ _
  · simp only [File.IsOKState, File.IsWarningState, File.IsCriticalState]
    exact okChar _ _ _ _
  · simp only [KeyPair.IsCriticalState]
    exact orChar _ _
  · simp only [KeyPair.IsOKState]
    exact pairOkChar _ _ _

/-- C5 (code bug): after `evalExpectedData` matches candidate "b" in
`ValueFound` mode, `HasEvidence()` is true and `Ignored()` is false, yet
`RebootRequired()` is false — the method promoted from the embedded `Key`
statically calls `Key.HasEvidence`, which never sees the
`ValueFound`/`AllValuesFound` flags, contradicting `KeyStrings.Evaluate`'s
documented behavior that any single match indicates a reboot is needed. -/
theorem keyStrings_rebootRequired_misses_valueFound :
    (KeyStrings.evalExpectedData ksC5).HasEvidence = true ∧
    (KeyStrings.evalExpectedData ksC5).Ignored = false ∧
    (KeyStrings.evalExpectedData ksC5).RebootRequired = false := by
  decide

/-- C6 counterexample: a `KeyPair` with exactly one recorded matched path,
which is marked ignored (first member), and a second member with none: every
recorded matched path is ignored and at least one exists, yet `Ignored()` is
false, because `KeyPair.Ignored` demands each member be independently
ignored and a memberless of paths is never ignored. -/
theorem keyPair_ignored_not_all_paths_rule :
    Asserter.numMatchedPaths (Asserter.keyPair kpC6) = 1 ∧
    (∀ e ∈ kpC6.keys0.runtime.pathsMatched, e.2 = true) ∧
    (∀ e ∈ kpC6.keys1.runtime.pathsMatched, e.2 = true) ∧
    Asserter.Ignored (Asserter.keyPair kpC6) = false := by
  decide

/-- C6 (amended): zero recorded matched paths force `Ignored()` false for
every asserter; for `Key` (and its typed variants) and `File`, `Ignored()`
is true iff at least one matched path is recorded and all are marked
ignored; a `KeyPair` instead requires each member to be independently
ignored under that same rule. -/
theorem ignored_characterization :
    (∀ k : Key, k.Ignored = true ↔
      (k.runtime.pathsMatched ≠ [] ∧ ∀ e ∈ k.runtime.pathsMatched, e.2 = true)) ∧
    (∀ f : File, f.Ignored = true ↔
      (f.runtime.pathsMatched ≠ [] ∧ ∀ e ∈ f.runtime.pathsMatched, e.2 = true)) ∧
    (∀ kp : KeyPair, kp.Ignored = true ↔
      (kp.keys0.Ignored = true ∧ kp.keys1.Ignored = true)) ∧
    (∀ a : Asserter, a.numMatchedPaths = 0 → a.Ignored = false) := by
  have hkey : ∀ k : Key, k.Ignored = true ↔
      (k.runtime.pathsMatched ≠ [] ∧ ∀ e ∈ k.runtime.pathsMatched, e.2 = true) := by
    intro k
    rcases hp : k.runtime.pathsMatched with _ | ⟨a, l⟩
    · simp [Key.Ignored, hp]
    · simp [Key.Ignored, hp, List.all_eq_true]
  have hfile : ∀ f : File, f.Ignored = true ↔
      (f.runtime.pathsMatched ≠ [] ∧ ∀ e ∈ f.runtime.pathsMatched, e.2 = true) := by
    intro f
    rcases hp : f.runtime.pathsMatched with _ | ⟨a, l⟩
    · simp [File.Ignored, hp]
    · simp [File.Ignored, hp, List.all_eq_true]
  refine ⟨hkey, hfile, fun kp => ?_, fun a ha => ?_⟩
  · simp [KeyPair.Ignored]
  · cases a with
    | key k =>
      simp only [Asserter.numMatchedPaths] at ha
      simp [Asserter.Ignored, Key.Ignored, ha]
    | keyStrings ks =>
      simp only [Asserter.numMatchedPaths] at ha
      simp [Asserter.Ignored, KeyStrings.Ignored, Key.Ignored, ha]
    | keyPair kp =>
      simp only [Asserter.numMatchedPaths] at ha
      have h0 : kp.keys0.runtime.pathsMatched.length = 0 := by omega
      have h1 : kp.keys1.runtime.pathsMatched.length = 0 := by omega
      simp [Asserter.Ignored, KeyPair.Ignored, Key.Ignored, h0, h1]
    | file f =>
      simp only [Asserter.numMatchedPaths] at ha
      simp [Asserter.Ignored, File.Ignored, ha]

/-- C6 witness: the amended characterization applied to a freshly-constructed
key with no recorded matched paths. -/
theorem ignored_characterization_witness :
    Asserter.numMatchedPaths (Asserter.key ({} : Key)) = 0 ∧
    Asserter.Ignored (Asserter.key ({} : Key)) = false :=
  ⟨by decide, ignored_characterization.2.2.2 (Asserter.key ({} : Key)) (by decide)⟩

/-- C7: `Filter` marks a recorded matched path ignored iff some configured
pattern, normalized (case-folded, separators canonicalized), occurs as a
substring of the normalized matched-path string (an already-ignored entry
stays ignored); in particular the pattern `software/foo/pending/abc` marks
`SOFTWARE\Foo\Pending\abc\subitem` ignored across case and separator
differences. -/
theorem filter_marks_iff_normalized_contains :
    (∀ (k : Key) (ignorePatterns : List String) (i : Nat)
        (h : i < k.runtime.pathsMatched.length)
        (h2 : i < (k.Filter ignorePatterns).runtime.pathsMatched.length),
      ((k.Filter ignorePatterns).runtime.pathsMatched.get ⟨i, h2⟩).2 =
        ((k.runtime.pathsMatched.get ⟨i, h⟩).2 ||
          ignorePatterns.any (fun pat =>
            goContains (NormalizePath (k.runtime.pathsMatched.get ⟨i, h⟩).1)
              (NormalizePath pat)))) ∧
    (Key.Filter kC7 [patC7]).runtime.pathsMatched =
      [("SOFTWARE\\Foo\\Pending\\abc\\subitem", true)] := by
  constructor
  · intro k ignorePatterns i h h2
    by_cases hip : ignorePatterns.length = 0
    · have hnil : ignorePatterns = [] := List.length_eq_zero.mp hip
      subst hnil
      simp [Key.Filter]
    · have hne : ignorePatterns ≠ [] := by
        intro hh
        exact hip (by simp [hh])
      simp only [Key.Filter, if_neg hip] at h2 ⊢
      simp [List.get_eq_getElem, List.getElem_map, filterEntry, hne]
  · decide

/-- C7 witness: the containment characterization applied to the concrete
matched path and pattern. -/
theorem filter_marks_iff_witness :
    ((Key.Filter kC7 [patC7]).runtime.pathsMatched.get ⟨0, by decide⟩).2 =
      ((kC7.runtime.pathsMatched.get ⟨0, by decide⟩).2 ||
        [patC7].any (fun pat =>
          goContains (NormalizePath (kC7.runtime.pathsMatched.get ⟨0, by decide⟩).1)
            (NormalizePath pat))) :=
  filter_marks_iff_normalized_contains.1 kC7 [patC7] 0 (by decide) (by decide)

/-- Applying the per-entry filter step twice marks the same flag once. -/
theorem filterEntry_idem (ignorePatterns : List String) (e : String × Bool) :
    filterEntry ignorePatterns (filterEntry ignorePatterns e) =
      filterEntry ignorePatterns e := by
  simp [filterEntry, Bool.or_assoc]

/-- `Key.Filter` is idempotent for a fixed pattern list. -/
theorem key_filter_idem (k : Key) (ignorePatterns : List String) :
    (k.Filter ignorePatterns).Filter ignorePatterns = k.Filter ignorePatterns := by
  have hmap : ∀ l : List (String × Bool),
      (l.map (filterEntry ignorePatterns)).map (filterEntry ignorePatterns) =
        l.map (filterEntry ignorePatterns) := by
    intro l
    induction l with
    | nil => rfl
    | cons a t ih => simp only [List.map_cons, filterEntry_idem, ih]
  by_cases hip : ignorePatterns.length = 0
  · simp [Key.Filter, hip]
  · simp only [Key.Filter, if_neg hip, hmap]

/-- `File.Filter` is idempotent for a fixed pattern list. -/
theorem file_filter_idem (f : File) (ignorePatterns : List String) :
    (f.Filter ignorePatterns).Filter ignorePatterns = f.Filter ignorePatterns := by
  have hmap : ∀ l : List (String × Bool),
      (l.map (filterEntry ignorePatterns)).map (filterEntry ignorePatterns) =
        l.map (filterEntry ignorePatterns) := by
    intro l
    induction l with
    | nil => rfl
    | cons a t ih => simp only [List.map_cons, filterEntry_idem, ih]
  by_cases hip : ignorePatterns.length = 0
  · simp [File.Filter, hip]
  · simp only [File.Filter, if_neg hip, hmap]

/-- Member-level filtering is idempotent for every asserter variant. -/
theorem asserter_filter_idem (a : Asserter) (ignorePatterns : List String) :
    Asserter.Filter ignorePatterns (Asserter.Filter ignorePatterns a) =
      Asserter.Filter ignorePatterns a := by
  cases a with
  | key k => simp [Asserter.Filter, key_filter_idem]
  | keyStrings ks => simp [Asserter.Filter, key_filter_idem]
  | keyPair kp => simp [Asserter.Filter, KeyPair.Filter, key_filter_idem]
  | file f => simp [Asserter.Filter, file_filter_idem]

/-- C8: calling the collection-level `Filter` twice with the same pattern
list leaves every asserter — and hence every recorded matched path's ignored
flag and the ignored/not-ignored partition — exactly as one call does. -/
theorem filter_idempotent (rras : List Asserter) (ignorePatterns : List String) :
    RebootRequiredAsserters.Filter
        (RebootRequiredAsserters.Filter rras ignorePatterns) ignorePatterns =
      RebootRequiredAsserters.Filter rras ignorePatterns := by
  induction rras with
  | nil => rfl
  | cons a t ih =>
    simp only [RebootRequiredAsserters.Filter, List.map_cons] at ih ⊢
    rw [asserter_filter_idem a ignorePatterns, ih]

/-- The buffer component of a gathering step depends only on how the value
lookup went: it is present exactly when both `GetValue` calls succeeded. -/
theorem gatherOne_snd (key : Key) (lookup : RegValueLookup) :
    (gatherOne key lookup).2 = gatherBuffer lookup := by
  cases lookup with
  | notExist =>
    by_cases hv : key.valueRequired <;> simp [gatherOne, gatherBuffer, hv]
  | sizeErr m => rfl
  | dataErr m => rfl
  | ok b => rfl

/-- `evalKeyPairData` hits an out-of-range index (the modelled panic)
whenever fewer than two buffers were gathered. -/
theorem evalKeyPairData_none_of_short (kp : KeyPair)
    (h : kp.runtime.data.length < 2) : kp.evalKeyPairData = none := by
  rcases hl : kp.runtime.data with _ | ⟨a, _ | ⟨b, t⟩⟩
  · simp [KeyPair.evalKeyPairData, hl]
  · simp [KeyPair.evalKeyPairData, hl]
  · rw [hl] at h
    simp only [List.length_cons] at h
    omega

/-- C9: with `PairedValuesDoNotMatch` configured, both members carrying
non-empty value names, both base evaluations completing without error or
evidence, and at least one member's value-data gathering yielding no buffer
(absent value or retrieval error), `KeyPair.Evaluate` reaches
`evalKeyPairData` with fewer than two buffers and panics with an
index-out-of-range error (modelled as `none`). -/
theorem keyPair_evaluate_panics_on_short_data (kp : KeyPair) (env0 env1 : MemberEnv)
    (hcfg : kp.additionalEvidence = true)
    (hv0 : (kp.keys0.value == "") = false)
    (hv1 : (kp.keys1.value == "") = false)
    (hb0 : env0.baseErr = none) (he0 : env0.baseEvidence = false)
    (hb1 : env1.baseErr = none) (he1 : env1.baseEvidence = false)
    (hfe0 : kp.keys0.HasEvidence = false)
    (hfe1 : kp.keys1.HasEvidence = false)
    (hdata : kp.runtime.data = [])
    (hshort : gatherBuffer env0.lookup = none ∨ gatherBuffer env1.lookup = none) :
    KeyPair.EvaluateModel kp env0 env1 = none := by
  obtain ⟨k0, k1, rt, ae⟩ := kp
  obtain ⟨dt, pv⟩ := rt
  obtain ⟨be0, bev0, lk0⟩ := env0
  obtain ⟨be1, bev1, lk1⟩ := env1
  simp only at hcfg hv0 hv1 hb0 he0 hb1 he1 hfe0 hfe1 hdata hshort
  subst hcfg hb0 he0 hb1 he1 hdata
  simp only [KeyPair.EvaluateModel, applyBaseEval, Bool.false_eq_true, if_false,
    Key.Err] at *
  simp only [Key.HasEvidence] at hfe0 hfe1 ⊢
  simp only [hfe0, hfe1, hv0, hv1, Bool.not_true, Bool.false_eq_true, if_false,
    Option.isSome_none, gatherOne_snd]
  rcases hshort with hs | hs
  · rw [hs]
    apply evalKeyPairData_none_of_short
    cases gatherBuffer lk1 <;> simp
  · rw [hs]
    apply evalKeyPairData_none_of_short
    cases gatherBuffer lk0 <;> simp

/-- C9 witness: a configured pair whose first member's value is absent at
gathering time while the second member's retrieval succeeds; evaluation
panics. -/
theorem keyPair_evaluate_panics_witness :
    KeyPair.EvaluateModel kpC9 envC9abs envC9ok = none :=
  keyPair_evaluate_panics_on_short_data kpC9 envC9abs envC9ok
    (by decide) (by decide) (by decide) (by decide) (by decide) (by decide)
    (by decide) (by decide) (by decide) (by decide) (Or.inl (by decide))

/-- C10 counterexample: three blank raw entries exceed the display limit
while zero entries survive cleanup, yet `DataDisplay` does not panic — the
`CleanedData()[:2]` slice expression stays within the cleaned slice's
capacity (the raw entry count) and pads the sample with zero-valued strings,
producing a display string with blank samples. -/
theorem dataDisplay_no_panic_on_blank_entries :
    ksC10.runtime.data.length > RegKeyTypeMultiSZDataDisplayLimit ∧
    (CleanedData ksC10.runtime.data).length < RegKeyTypeMultiSZDataDisplayLimit ∧
    KeyStrings.DataDisplay ksC10 = some "Entries [3 total, 1 skipped]: , " := by
  decide

/-- C10 (amended): `DataDisplay` is total.  In the over-limit branch the
slice's upper bound (the display limit) never exceeds the cleaned slice's
capacity, which equals the raw entry count and is then above the limit, so
the Go slice expression is always legal and no panic can occur. -/
theorem dataDisplay_total (ks : KeyStrings) :
    (ks.DataDisplay).isSome = true := by
  unfold KeyStrings.DataDisplay
  by_cases h : ks.runtime.data.length > RegKeyTypeMultiSZDataDisplayLimit
  · have h2 : RegKeyTypeMultiSZDataDisplayLimit ≤ ks.runtime.data.length :=
      le_of_lt h
    simp only [if_pos h, goSliceTake, if_pos h2, Option.isSome_some]
  · simp [if_neg h]
